import Mathlib

/-
Verification of the TradingBot scheduling and indicator-state core
(lib/trading_bot.js and its two sibling variants).

The embedding models:
  * the indicator records (updated / data / errors) and the fetch
    operations that mutate them (fetch_ticker, fetch_myorders);
  * promise settlement times, so that Promise.all-based
    refresh_indicators can be reasoned about as a synchronization point;
  * the single-flight scheduler around execute_strategy as an event
    machine (timer ticks and strategy-promise settlements);
  * the start/stop lifecycle driven by the continuous timer's
    started/stopped events;
  * the derived price / midmarket_price getters of the ticker-based
    variant, with JavaScript numeric-coercion semantics (NaN modelled
    as Option.none over the rationals).

Timestamps are modelled as naturals, error payloads and data payloads
as type parameters.
-/

namespace TradingBotModel

/-- An indicator record as created by init_state:
updated and data both absent, errors an empty list.
Mirrors the object shape used for this._ticker and this._myorders. -/
structure Indicator (α ε : Type) where
  updated : Option Nat
  data : Option α
  errors : List (Nat × ε)

/-- The record init_state assigns to each indicator. -/
def Indicator.init {α ε : Type} : Indicator α ε :=
  { updated := none, data := none, errors := [] }

/-- A settled promise: the time at which it settled and the value it
resolved with.  Used to model when asynchronous operations complete. -/
structure PromiseR (α : Type) where
  settleTime : Nat
  value : α

/-- Promise.all over two promises: resolves with both values, and
settles only once the later of the two has settled. -/
def promiseAll2 {α β : Type} (p : PromiseR α) (q : PromiseR β) :
    PromiseR (α × β) :=
  { settleTime := max p.settleTime q.settleTime, value := (p.value, q.value) }

/-- fetch_ticker of lib/trading_bot.js: the client callback fires at
time now with either an error or a ticker.  On error the indicator
gets one (now, err) entry appended to errors and the promise resolves
with null (it never rejects); on success updated and data are set and
the promise resolves with the ticker. -/
def fetch_ticker {α ε : Type} (now : Nat) (result : Except ε α)
    (ind : Indicator α ε) : Indicator α ε × PromiseR (Option α) :=
  match result with
  | Except.error err =>
      ({ ind with errors := ind.errors ++ [(now, err)] },
       { settleTime := now, value := none })
  | Except.ok ticker =>
      ({ ind with updated := some now, data := some ticker },
       { settleTime := now, value := some ticker })

/-- fetch_myorders of lib/trading_bot.js: same shape as fetch_ticker,
acting on the my-orders indicator via client.getOrders. -/
def fetch_myorders {α ε : Type} (now : Nat) (result : Except ε α)
    (ind : Indicator α ε) : Indicator α ε × PromiseR (Option α) :=
  match result with
  | Except.error err =>
      ({ ind with errors := ind.errors ++ [(now, err)] },
       { settleTime := now, value := none })
  | Except.ok orders =>
      ({ ind with updated := some now, data := some orders },
       { settleTime := now, value := some orders })

/-- A sequence of consecutive failed fetch_ticker refreshes, each given
by its callback time and error, applied in order to an indicator. -/
def run_failed_fetches {α ε : Type} (ind : Indicator α ε)
    (failures : List (Nat × ε)) : Indicator α ε :=
  failures.foldl (fun i f => (fetch_ticker f.1 (Except.error f.2) i).1) ind

/-- A sequence of consecutive failed fetch_myorders refreshes applied
in order to an indicator. -/
def run_failed_myorders {α ε : Type} (ind : Indicator α ε)
    (failures : List (Nat × ε)) : Indicator α ε :=
  failures.foldl (fun i f => (fetch_myorders f.1 (Except.error f.2) i).1) ind

/-- The indicator state owned by a lib/trading_bot.js bot: the ticker
indicator and the my-orders indicator (the two entries refreshed by
refresh_indicators in that file). -/
structure IndicatorBot (τ ω ε : Type) where
  ticker : Indicator τ ε
  myorders : Indicator ω ε

/-- refresh_indicators of lib/trading_bot.js:
Promise.all([fetch_ticker(), fetch_myorders()]).  Both fetches are
issued immediately (each with its own callback time and outcome,
independent of the other) and the returned promise is their
Promise.all combination. -/
def refresh_indicators {τ ω ε : Type} (t1 : Nat) (r1 : Except ε τ)
    (t2 : Nat) (r2 : Except ε ω) (b : IndicatorBot τ ω ε) :
    IndicatorBot τ ω ε × PromiseR (Option τ × Option ω) :=
  let f1 := fetch_ticker t1 r1 b.ticker
  let f2 := fetch_myorders t2 r2 b.myorders
  ({ ticker := f1.1, myorders := f2.1 }, promiseAll2 f1.2 f2.2)

/-- The scheduler state around execute_strategy.  busy_executing is the
_busy_executing flag; inFlight counts strategy invocations currently
in flight; invocations counts invocations started; unhandled counts
strategy failures that escaped the scheduler (unhandled rejections or
uncaught synchronous throws); log collects messages passed to
this.log. -/
structure SchedulerState (ε : Type) where
  busy_executing : Bool
  inFlight : Nat
  invocations : Nat
  unhandled : Nat
  log : List String

/-- The scheduler state at construction time. -/
def SchedulerState.init {ε : Type} : SchedulerState ε :=
  { busy_executing := false, inFlight := 0, invocations := 0,
    unhandled := 0, log := [] }

/-- The literal message logged when a tick is skipped. -/
def skip_message : String :=
  "The last trade execution is still busy. Skipping this round"

/-- Events driving the scheduler: a timer tick delivered to
execute_strategy, or the settlement (fulfillment or rejection) of the
promise of the strategy invocation currently in flight. -/
inductive SchedulerEvent (ε : Type) where
  | tick
  | complete (outcome : Except ε Unit)

/-- execute_strategy of lib/trading_bot.js, as the handler of one timer
tick.  If _busy_executing is set, it only logs the skip message and
returns.  Otherwise it sets _busy_executing and schedules (via
setImmediate) exactly one strategy invocation; since the flag is
already set when the tick handler returns, the invocation is counted
as started here. -/
def execute_strategy {ε : Type} (s : SchedulerState ε) : SchedulerState ε :=
  if s.busy_executing then
    { s with log := s.log ++ [skip_message] }
  else
    { s with busy_executing := true,
             inFlight := s.inFlight + 1,
             invocations := s.invocations + 1 }

/-- Settlement of the in-flight strategy invocation's promise.  The
source attaches only a fulfillment handler:
_execute_trading_strategy().then(() => this._busy_executing = false).
So on fulfillment the busy flag is cleared; on rejection (or an
uncaught synchronous throw inside the setImmediate callback) the
handler never runs, the busy flag is left as it was, and the failure
escapes the scheduler unhandled.  A settlement with nothing in flight
cannot arise and is a no-op. -/
def strategy_settled {ε : Type} (outcome : Except ε Unit)
    (s : SchedulerState ε) : SchedulerState ε :=
  if s.inFlight = 0 then s
  else
    match outcome with
    | Except.ok _ =>
        { s with inFlight := s.inFlight - 1, busy_executing := false }
    | Except.error _ =>
        { s with inFlight := s.inFlight - 1, unhandled := s.unhandled + 1 }

/-- One scheduler event. -/
def scheduler_step {ε : Type} (s : SchedulerState ε) :
    SchedulerEvent ε → SchedulerState ε
  | SchedulerEvent.tick => execute_strategy s
  | SchedulerEvent.complete outcome => strategy_settled outcome s

/-- The scheduler state after a sequence of events from the initial
state. -/
def scheduler_run {ε : Type} (events : List (SchedulerEvent ε)) :
    SchedulerState ε :=
  events.foldl scheduler_step SchedulerState.init

/-- The single-flight invariant: at most one invocation in flight, and
none at all while the busy flag is clear. -/
def scheduler_inv {ε : Type} (s : SchedulerState ε) : Prop :=
  s.inFlight ≤ 1 ∧ (s.busy_executing = false → s.inFlight = 0)

end TradingBotModel

namespace TradingBotModel

/-- Lifecycle state of a lib/trading_bot.js bot: the _is_trading flag
and the continuous timer handle (absent until start_trading creates
one; the boolean records whether the timer is currently running). -/
structure BotState where
  is_trading : Bool
  timer : Option Bool

/-- Events emitted by the continuous timer. -/
inductive TimerEvent where
  | started
  | stopped

/-- The handlers start_trading registers on the timer: the started
event sets _is_trading, the stopped event clears it. -/
def handle_timer_event (s : BotState) : TimerEvent → BotState
  | TimerEvent.started => { s with is_trading := true }
  | TimerEvent.stopped => { s with is_trading := false }

/-- The synchronous part of start_trading of lib/trading_bot.js.  If
already trading it resolves at once with false, touching nothing.
Otherwise it creates a new continuous timer, stores it, starts it, and
leaves the promise pending (none) until the started event fires. -/
def start_trading (s : BotState) : BotState × Option Bool :=
  if s.is_trading then (s, some false)
  else ({ s with timer := some true }, none)

/-- start_trading followed through to the resolution of its promise:
when the call left the promise pending, the timer's started event
fires, the registered handler sets _is_trading, and the promise
resolves with true. -/
def start_and_settle (s : BotState) : BotState × Bool :=
  let r := start_trading s
  match r.2 with
  | some v => (r.1, v)
  | none => (handle_timer_event r.1 TimerEvent.started, true)

/-- stop_trading of lib/trading_bot.js.  Not trading: resolves at once.
Otherwise the cancel promise is cancel_all_orders() when
options.cancel is set (its outcome supplied here) and an already
resolved promise when not; the timer teardown runs in
cancel.then(...), so it happens only when that promise fulfils.  When
the cancel promise rejects, the then-handler never runs: the timer is
not stopped, _is_trading stays set, and the returned promise rejects
with the cancellation error. -/
def stop_trading {ε : Type} (cancelOpt : Bool) (cancelResult : Except ε Unit)
    (s : BotState) : BotState × Except ε Unit :=
  if s.is_trading = false then (s, Except.ok ())
  else
    match (if cancelOpt then cancelResult else Except.ok ()) with
    | Except.error e => (s, Except.error e)
    | Except.ok _ =>
        (handle_timer_event
          { s with timer := s.timer.map (fun _ => false) } TimerEvent.stopped,
         Except.ok ())

end TradingBotModel

namespace TradingBotModel

/-- A JavaScript number: none stands for NaN, some q for the rational
value of a finite number (the decimal literals involved are exact). -/
abbrev JSNum : Type := Option ℚ

/-- JavaScript addition: NaN propagates. -/
def jsAdd (a b : JSNum) : JSNum :=
  match a, b with
  | some x, some y => some (x + y)
  | _, _ => none

/-- Multiplication by the literal 0.5, as in 0.5 * (...). -/
def jsHalf (a : JSNum) : JSNum :=
  match a with
  | some x => some (1 / 2 * x)
  | none => none

/-- Reads a list of decimal digit characters as a natural number
(empty list reads as 0, as in JavaScript string-to-number coercion);
any non-digit yields none. -/
def parseNatDigits (cs : List Char) : Option Nat :=
  cs.foldl
    (fun acc c =>
      match acc with
      | none => none
      | some n => if c.isDigit then some (10 * n + (c.toNat - 48)) else none)
    (some 0)

/-- Splits a character list at every dot, as String.split on "." does
for these decimal strings. -/
def splitDot (cs : List Char) : List (List Char) :=
  match cs with
  | [] => [[]]
  | c :: rest =>
      let r := splitDot rest
      if c = '.' then [] :: r
      else
        match r with
        | [] => [[c]]
        | h :: t => (c :: h) :: t

/-- The unary + coercion applied to a decimal string such as "402.05":
an optional integer part and an optional fractional part separated by
one dot; anything else coerces to NaN. -/
def jsStringToNum (s : String) : JSNum :=
  match splitDot s.toList with
  | [intPart] => (parseNatDigits intPart).map (fun n => (n : ℚ))
  | [intPart, fracPart] =>
      match parseNatDigits intPart, parseNatDigits fracPart with
      | some i, some f =>
          some ((i : ℚ) + (f : ℚ) / (10 : ℚ) ^ fracPart.length)
      | _, _ => none
  | _ => none

/-- The + coercion applied to a possibly absent property: undefined
coerces to NaN. -/
def jsToNum (s : Option String) : JSNum :=
  match s with
  | none => none
  | some str => jsStringToNum str

/-- The ticker payload returned by client.getProductTicker, as the
getters read it: price, bid and ask properties (each possibly absent),
and an errors property that exchange tickers never carry (reading it
yields undefined, modelled as the none default). -/
structure TickerPayload (ε : Type) where
  price : Option String
  bid : Option String
  ask : Option String
  errors : Option (List (Nat × ε))

/-- The object a derived getter returns: updated, data and errors
properties, each possibly undefined. -/
structure DerivedView (α ε : Type) where
  updated : Option Nat
  data : Option α
  errors : Option (List (Nat × ε))

/-- The module-level no_data constant: an object with undefined
updated and data (and no errors property). -/
def no_data {α ε : Type} : DerivedView α ε :=
  { updated := none, data := none, errors := none }

/-- The ticker-holding state of the variant bot whose price and
midmarket_price getters read the stored ticker indicator. -/
structure TickerBot (ε : Type) where
  ticker : Indicator (TickerPayload ε) ε

/-- The price getter: with ticker data present it returns an object
with the indicator's updated stamp, the payload's price, and the
payload's errors property (note: the source reads info.errors where
info is this._ticker.data, the fetched payload, not the indicator
record); with no ticker data it returns no_data. -/
def price {ε : Type} (b : TickerBot ε) : DerivedView String ε :=
  match b.ticker.data with
  | some info =>
      { updated := b.ticker.updated, data := info.price, errors := info.errors }
  | none => no_data

/-- The midmarket_price getter: with ticker data present it returns an
object whose data is 0.5 * (+info.ask + (+info.bid)) under JavaScript
coercion, with the indicator's updated stamp and the payload's errors
property; with no ticker data it returns no_data. -/
def midmarket_price {ε : Type} (b : TickerBot ε) : DerivedView JSNum ε :=
  match b.ticker.data with
  | some info =>
      { updated := b.ticker.updated,
        data := some (jsHalf (jsAdd (jsToNum info.ask) (jsToNum info.bid))),
        errors := info.errors }
  | none => no_data

/-- The ticker payload the mock exchange client returns, with both
sides quoted. -/
def payload_full : TickerPayload String :=
  { price := some "402.50", bid := some "402.05", ask := some "403.05",
    errors := none }

/-- A ticker payload quoting an ask but no bid. -/
def payload_no_bid : TickerPayload String :=
  { price := some "402.50", bid := none, ask := some "403.05",
    errors := none }

/-- A bot whose ticker indicator holds the fully quoted payload. -/
def bot_with_ticker : TickerBot String :=
  { ticker := { updated := some 5, data := some payload_full, errors := [] } }

/-- A bot whose ticker indicator holds the payload missing its bid. -/
def bot_missing_bid : TickerBot String :=
  { ticker := { updated := some 5, data := some payload_no_bid, errors := [] } }

/-- A ticker payload for the error-propagation scenario (same quotes,
separate definition so the scenario is self-contained). -/
def payload_for_err : TickerPayload String :=
  { price := some "402.50", bid := some "402.05", ask := some "403.05",
    errors := none }

/-- A bot whose ticker indicator holds data and one accumulated error
entry recorded by an earlier failed refresh. -/
def bot_with_error_log : TickerBot String :=
  { ticker := { updated := some 5, data := some payload_for_err,
                errors := [(3, "boom")] } }

end TradingBotModel

namespace TradingBotModel

lemma run_failed_fetches_eq {α ε : Type} :
    ∀ (failures : List (Nat × ε)) (ind : Indicator α ε),
      run_failed_fetches ind failures =
        { ind with errors := ind.errors ++ failures } := by
  intro failures
  induction failures with
  | nil => intro ind; simp [run_failed_fetches]
  | cons f fs ih =>
      intro ind
      obtain ⟨t, e⟩ := f
      have h1 : run_failed_fetches ind ((t, e) :: fs) =
          run_failed_fetches { ind with errors := ind.errors ++ [(t, e)] } fs := by
        simp [run_failed_fetches, fetch_ticker, List.foldl_cons]
      rw [h1, ih]
      simp

lemma run_failed_myorders_eq {α ε : Type} :
    ∀ (failures : List (Nat × ε)) (ind : Indicator α ε),
      run_failed_myorders ind failures =
        { ind with errors := ind.errors ++ failures } := by
  intro failures
  induction failures with
  | nil => intro ind; simp [run_failed_myorders]
  | cons f fs ih =>
      intro ind
      obtain ⟨t, e⟩ := f
      have h1 : run_failed_myorders ind ((t, e) :: fs) =
          run_failed_myorders { ind with errors := ind.errors ++ [(t, e)] } fs := by
        simp [run_failed_myorders, fetch_myorders, List.foldl_cons]
      rw [h1, ih]
      simp

/-- Claim C4: any sequence of consecutive failed refreshes leaves the
indicator's data and updated fields exactly as they were, grows the
errors sequence by exactly one (timestamp, error) entry per failure in
failure order, and each failed fetch resolves (with null) rather than
raising the failure to its caller. -/
theorem fetch_failures_preserve_data_append_errors {α ε : Type}
    (ind : Indicator α ε) (failures : List (Nat × ε)) :
    (run_failed_fetches ind failures).data = ind.data ∧
    (run_failed_fetches ind failures).updated = ind.updated ∧
    (run_failed_fetches ind failures).errors = ind.errors ++ failures ∧
    (∀ (t : Nat) (e : ε) (j : Indicator α ε),
      (fetch_ticker t (Except.error e) j).2.value = none) ∧
    (∀ (t : Nat) (e : ε) (j : Indicator α ε),
      (fetch_myorders t (Except.error e) j).2.value = none) := by
  refine ⟨?_, ?_, ?_, ?_, ?_⟩
  · rw [run_failed_fetches_eq]
  · rw [run_failed_fetches_eq]
  · rw [run_failed_fetches_eq]
  · intro t e j; simp [fetch_ticker]
  · intro t e j; simp [fetch_myorders]

/-- Claim C5: a successful refresh after any number of accumulated
failures sets data to the fetched value and updated to the refresh
time while leaving every prior error entry present in its original
order; the error log is append-only and never truncated by success. -/
theorem fetch_success_keeps_error_log {α ε : Type} (ind : Indicator α ε)
    (failures : List (Nat × ε)) (now : Nat) (v : α) :
    ((fetch_myorders now (Except.ok v) (run_failed_myorders ind failures)).1).data
      = some v ∧
    ((fetch_myorders now (Except.ok v) (run_failed_myorders ind failures)).1).updated
      = some now ∧
    ((fetch_myorders now (Except.ok v) (run_failed_myorders ind failures)).1).errors
      = ind.errors ++ failures ∧
    ((fetch_myorders now (Except.ok v) (run_failed_myorders ind failures)).1).errors.length
      = ind.errors.length + failures.length := by
  rw [run_failed_myorders_eq]
  refine ⟨?_, ?_, ?_, ?_⟩ <;> simp [fetch_myorders]

/-- Claim C7: refresh_indicators issues the two per-indicator fetches
concurrently and independently (each indicator's new state is
determined by its own fetch alone, unaffected by the other's outcome
or timing), and the Promise.all it returns settles exactly at the
later of the two individual settlements, hence not before either of
them has settled. -/
theorem refresh_indicators_settles_after_all {τ ω ε : Type}
    (t1 : Nat) (r1 : Except ε τ) (t2 : Nat) (r2 : Except ε ω)
    (b : IndicatorBot τ ω ε) :
    t1 ≤ (refresh_indicators t1 r1 t2 r2 b).2.settleTime ∧
    t2 ≤ (refresh_indicators t1 r1 t2 r2 b).2.settleTime ∧
    (refresh_indicators t1 r1 t2 r2 b).2.settleTime =
      max (fetch_ticker t1 r1 b.ticker).2.settleTime
          (fetch_myorders t2 r2 b.myorders).2.settleTime ∧
    (refresh_indicators t1 r1 t2 r2 b).1.ticker = (fetch_ticker t1 r1 b.ticker).1 ∧
    (refresh_indicators t1 r1 t2 r2 b).1.myorders =
      (fetch_myorders t2 r2 b.myorders).1 ∧
    (refresh_indicators t1 r1 t2 r2 b).2.value =
      ((fetch_ticker t1 r1 b.ticker).2.value,
       (fetch_myorders t2 r2 b.myorders).2.value) ∧
    (∀ (t2' : Nat) (r2' : Except ε ω),
      (refresh_indicators t1 r1 t2' r2' b).1.ticker =
        (refresh_indicators t1 r1 t2 r2 b).1.ticker) := by
  have hs1 : (fetch_ticker t1 r1 b.ticker).2.settleTime = t1 := by
    cases r1 <;> simp [fetch_ticker]
  have hs2 : (fetch_myorders t2 r2 b.myorders).2.settleTime = t2 := by
    cases r2 <;> simp [fetch_myorders]
  have hround : (refresh_indicators t1 r1 t2 r2 b).2.settleTime
      = max (fetch_ticker t1 r1 b.ticker).2.settleTime
            (fetch_myorders t2 r2 b.myorders).2.settleTime := rfl
  refine ⟨?_, ?_, hround, rfl, rfl, rfl, fun t2' r2' => rfl⟩
  · rw [hround, hs1]
    exact Nat.le_max_left _ _
  · rw [hround, hs2]
    exact Nat.le_max_right _ _

lemma scheduler_step_preserves_inv {ε : Type} (s : SchedulerState ε)
    (ev : SchedulerEvent ε) (h : scheduler_inv s) :
    scheduler_inv (scheduler_step s ev) := by
  obtain ⟨h1, h2⟩ := h
  cases ev with
  | tick =>
      show scheduler_inv (execute_strategy s)
      unfold execute_strategy
      by_cases hb : s.busy_executing = true
      · rw [if_pos hb]
        exact ⟨h1, h2⟩
      · rw [if_neg hb]
        have hf : s.busy_executing = false := by
          cases hx : s.busy_executing
          · rfl
          · exact absurd hx hb
        have h0 : s.inFlight = 0 := h2 hf
        exact ⟨show s.inFlight + 1 ≤ 1 by omega,
               fun hfalse => absurd hfalse (by simp)⟩
  | complete outcome =>
      show scheduler_inv (strategy_settled outcome s)
      unfold strategy_settled
      by_cases h0 : s.inFlight = 0
      · rw [if_pos h0]
        exact ⟨h1, h2⟩
      · rw [if_neg h0]
        cases outcome with
        | ok u =>
            exact ⟨show s.inFlight - 1 ≤ 1 by omega,
                   fun _ => show s.inFlight - 1 = 0 by omega⟩
        | error e =>
            exact ⟨show s.inFlight - 1 ≤ 1 by omega,
                   fun _ => show s.inFlight - 1 = 0 by omega⟩

lemma scheduler_run_inv {ε : Type} (events : List (SchedulerEvent ε)) :
    scheduler_inv (scheduler_run events) := by
  have hgen : ∀ (evs : List (SchedulerEvent ε)) (s : SchedulerState ε),
      scheduler_inv s → scheduler_inv (evs.foldl scheduler_step s) := by
    intro evs
    induction evs with
    | nil => intro s hs; simpa using hs
    | cons e es ih =>
        intro s hs
        simpa [List.foldl_cons] using ih _ (scheduler_step_preserves_inv s e hs)
  have hinit : scheduler_inv (SchedulerState.init : SchedulerState ε) :=
    ⟨by simp [SchedulerState.init], fun _ => by simp [SchedulerState.init]⟩
  exact hgen events SchedulerState.init hinit

/-- Claim C2: strategy invocations are single-flight.  In every state
reachable by a sequence of tick deliveries and invocation settlements
at most one invocation is in flight; a tick arriving while busy leaves
the invocation count and the in-flight count unchanged, performs no
queuing, and only appends the skipped-round message to the log; a
tick arriving while not busy sets busy, and starts exactly one
invocation. -/
theorem execute_strategy_single_flight {ε : Type}
    (events : List (SchedulerEvent ε)) :
    (scheduler_run events).inFlight ≤ 1 ∧
    ((scheduler_run events).busy_executing = true →
      (scheduler_step (scheduler_run events) SchedulerEvent.tick).invocations
        = (scheduler_run events).invocations ∧
      (scheduler_step (scheduler_run events) SchedulerEvent.tick).inFlight
        = (scheduler_run events).inFlight ∧
      (scheduler_step (scheduler_run events) SchedulerEvent.tick).busy_executing
        = true ∧
      (scheduler_step (scheduler_run events) SchedulerEvent.tick).log
        = (scheduler_run events).log ++ [skip_message]) ∧
    ((scheduler_run events).busy_executing = false →
      (scheduler_step (scheduler_run events) SchedulerEvent.tick).busy_executing
        = true ∧
      (scheduler_step (scheduler_run events) SchedulerEvent.tick).invocations
        = (scheduler_run events).invocations + 1 ∧
      (scheduler_step (scheduler_run events) SchedulerEvent.tick).inFlight
        = (scheduler_run events).inFlight + 1) := by
  obtain ⟨hle, hempty⟩ := scheduler_run_inv events
  refine ⟨hle, ?_, ?_⟩
  · intro hb
    refine ⟨?_, ?_, ?_, ?_⟩ <;> simp [scheduler_step, execute_strategy, hb]
  · intro hb
    refine ⟨?_, ?_, ?_⟩ <;> simp [scheduler_step, execute_strategy, hb]

/-- Witness for C2: after one tick from the initial state the in-flight
count is at most one, the busy flag is set, and a second tick only
appends the skipped-round message. -/
theorem execute_strategy_single_flight_witness :
    (scheduler_run ([SchedulerEvent.tick] : List (SchedulerEvent String))).inFlight
      ≤ 1 ∧
    (scheduler_step
      (scheduler_run ([SchedulerEvent.tick] : List (SchedulerEvent String)))
      SchedulerEvent.tick).log
      = (scheduler_run
          ([SchedulerEvent.tick] : List (SchedulerEvent String))).log
        ++ [skip_message] :=
  ⟨(execute_strategy_single_flight [SchedulerEvent.tick]).1,
   ((execute_strategy_single_flight
      ([SchedulerEvent.tick] : List (SchedulerEvent String))).2.1
      (by decide)).2.2.2⟩

/-- Claim C1 evaluated at its failing input: one tick starts an
invocation whose promise then rejects; the busy flag remains set (the
fulfillment-only then-handler never runs), the rejection escapes the
scheduler unhandled, and a subsequent tick starts no invocation and is
merely skipped.  The claim says the busy flag would be clear and the
failure contained. -/
theorem strategy_rejection_leaves_busy_stuck :
    (scheduler_run
      [SchedulerEvent.tick,
       SchedulerEvent.complete (Except.error "strategy failed")]).busy_executing
      = true ∧
    (scheduler_run
      [SchedulerEvent.tick,
       SchedulerEvent.complete (Except.error "strategy failed")]).inFlight = 0 ∧
    (scheduler_run
      [SchedulerEvent.tick,
       SchedulerEvent.complete (Except.error "strategy failed")]).unhandled = 1 ∧
    (scheduler_step
      (scheduler_run
        [SchedulerEvent.tick,
         SchedulerEvent.complete (Except.error "strategy failed")])
      SchedulerEvent.tick).invocations
      = (scheduler_run
          [SchedulerEvent.tick,
           SchedulerEvent.complete (Except.error "strategy failed")]).invocations := by
  decide

/-- Claim C3 evaluated at its failing input: a trading bot with a
running timer is stopped with options.cancel set while the cancel-all
request fails; the timer is not torn down, the trading flag stays
true, and the stop promise rejects with the cancellation error.  The
claim says the timer would still be torn down and trading become
false. -/
theorem stop_cancel_failure_keeps_timer :
    stop_trading true (Except.error "cancel failed")
        (BotState.mk true (some true))
      = (BotState.mk true (some true), Except.error "cancel failed") ∧
    (stop_trading true (Except.error "cancel failed")
        (BotState.mk true (some true))).1.is_trading = true ∧
    (stop_trading true (Except.error "cancel failed")
        (BotState.mk true (some true))).1.timer = some true :=
  ⟨rfl, rfl, rfl⟩

/-- Claim C6: calling start_trading on a bot that is already trading is
an idempotent no-op: it resolves immediately with false, creates no
timer and replaces none, and leaves the whole state (trading flag and
timer handle) unchanged. -/
theorem start_trading_idempotent_when_trading (s : BotState)
    (h : s.is_trading = true) :
    start_trading s = (s, some false) ∧ start_and_settle s = (s, false) := by
  constructor
  · simp [start_trading, h]
  · simp [start_and_settle, start_trading, h]

/-- Witness for C6: starting an already trading bot with a running
timer changes nothing and resolves with false. -/
theorem start_trading_idempotent_witness :
    start_trading (BotState.mk true (some true))
      = (BotState.mk true (some true), some false) ∧
    start_and_settle (BotState.mk true (some true))
      = (BotState.mk true (some true), false) :=
  start_trading_idempotent_when_trading (BotState.mk true (some true)) (by decide)

/-- Claim C10: the promise of start_trading resolves with false when
the bot is already trading (state untouched), and otherwise resolves
with true only after the freshly created timer's started event has
fired, at which point the trading flag is true and the new running
timer is installed; the resolved boolean distinguishes the two. -/
theorem start_trading_resolution_value (s : BotState) :
    (s.is_trading = true → start_and_settle s = (s, false)) ∧
    (s.is_trading = false →
      (start_and_settle s).2 = true ∧
      (start_and_settle s).1.is_trading = true ∧
      (start_and_settle s).1.timer = some true) := by
  constructor
  · intro h
    simp [start_and_settle, start_trading, h]
  · intro h
    simp [start_and_settle, start_trading, h, handle_timer_event]

/-- Witness for C10: a trading bot resolves false with state unchanged;
a stopped bot resolves true, trading with a running timer. -/
theorem start_trading_resolution_value_witness :
    start_and_settle (BotState.mk true (some true))
      = (BotState.mk true (some true), false) ∧
    (start_and_settle (BotState.mk false none)).2 = true ∧
    (start_and_settle (BotState.mk false none)).1.is_trading = true ∧
    (start_and_settle (BotState.mk false none)).1.timer = some true :=
  ⟨(start_trading_resolution_value (BotState.mk true (some true))).1 (by decide),
   (start_trading_resolution_value (BotState.mk false none)).2 (by decide)⟩

/-- Counterexample to claim C8: with ticker data present but the bid
side missing, reading midmarket_price does not yield the no-data
marker: it yields a view carrying the parent's updated stamp and a NaN
data value. -/
theorem midmarket_missing_side_not_no_data :
    midmarket_price bot_missing_bid ≠ (no_data : DerivedView JSNum String) ∧
    (midmarket_price bot_missing_bid).updated = some 5 ∧
    (midmarket_price bot_missing_bid).data = some none := by
  have h5 : (midmarket_price bot_missing_bid).updated = some 5 := by decide
  refine ⟨?_, h5, by decide⟩
  intro hodd
  rw [hodd] at h5
  simp [no_data] at h5

/-- Claim C8 as amended: midmarket_price is 0.5 * (bid + ask) of the
stored ticker whenever both sides are present and numeric (so bid
402.05 and ask 403.05 read as 402.55); with no ticker data at all it
yields the no-data marker; but with data present and either side
missing it yields a view with the parent's updated stamp and a NaN
data value, not the no-data marker. -/
theorem midmarket_price_amended :
    (midmarket_price bot_with_ticker).data = some (some ((402.55 : ℚ))) ∧
    (midmarket_price bot_with_ticker).updated = some 5 ∧
    (∀ (b : TickerBot String), b.ticker.data = none →
      midmarket_price b = no_data) ∧
    (∀ (b : TickerBot String) (info : TickerPayload String) (qa qb : ℚ),
      b.ticker.data = some info → jsToNum info.ask = some qa →
      jsToNum info.bid = some qb →
      (midmarket_price b).data = some (some (1 / 2 * (qa + qb)))) ∧
    ((midmarket_price bot_missing_bid).updated = some 5 ∧
     (midmarket_price bot_missing_bid).data = some none) := by
  refine ⟨?_, by decide, ?_, ?_, by decide, by decide⟩
  · have h : (midmarket_price bot_with_ticker).data
        = some (some (1 / 2 *
            ((((403 : ℕ) : ℚ) + ((5 : ℕ) : ℚ) / (10 : ℚ) ^ (2 : ℕ))
              + (((402 : ℕ) : ℚ) + ((5 : ℕ) : ℚ) / (10 : ℚ) ^ (2 : ℕ))))) := rfl
    rw [h]
    norm_num
  · intro b hb
    simp [midmarket_price, hb]
  · intro b info qa qb hb ha hbid
    simp [midmarket_price, hb, ha, hbid, jsAdd, jsHalf]

/-- Witness for the amended C8: the concrete quoted ticker reads as
402.55 and a never-refreshed ticker reads as the no-data marker. -/
theorem midmarket_price_amended_witness :
    (midmarket_price bot_with_ticker).data = some (some ((402.55 : ℚ))) ∧
    midmarket_price
        (TickerBot.mk (Indicator.mk none none []) : TickerBot String)
      = no_data :=
  ⟨(midmarket_price_amended).1,
   (midmarket_price_amended).2.2.1
     (TickerBot.mk (Indicator.mk none none [])) rfl⟩

/-- Claim C9 evaluated at its failing input: for a ticker indicator
holding data and one accumulated error entry, the derived views do
propagate the indicator's updated stamp, but their errors property is
the fetched payload's (absent) errors property, not the indicator's
accumulated error log.  The claim says the views' errors equal the
indicator's error log. -/
theorem derived_views_do_not_propagate_errors :
    (price bot_with_error_log).updated = bot_with_error_log.ticker.updated ∧
    (midmarket_price bot_with_error_log).updated
      = bot_with_error_log.ticker.updated ∧
    bot_with_error_log.ticker.errors = [(3, "boom")] ∧
    (price bot_with_error_log).errors = none ∧
    (midmarket_price bot_with_error_log).errors = none := by
  decide

end TradingBotModel
